import Mathlib

/-!
Shallow embedding of the LJ-Hackathon personal-finance backend
(src/agent.py, src/Routers/Users.py, src/app/main.py, src/app/ai_agent.py)
and proofs about its endpoint behavior.

Conventions of the embedding:
* SQL tables are lists of row records; `SELECT ... WHERE user_id = :uid ... fetchone()`
  is `List.find?` on the row list.
* Monetary amounts (`Float`/decimal columns) are modeled as `Int`; the nullable
  columns `credit_score` and `epf_balance` (see src/app/database_models.py) are
  `Option Int`.
* A FastAPI handler returns `Except HTTPError body`: `.error ⟨s, d⟩` models
  `raise HTTPException(status_code=s, detail=d)`, `.ok` models a 200 response.
* Python's `HTTPException` subclasses `Exception`, so a blanket
  `except Exception as e: raise HTTPException(500, str(e))` catches the handler's
  own `HTTPException`s; `str(e)` is `"{status_code}: {detail}"`.  This rewrap is
  `catch500` below.  The router handlers instead start with
  `except HTTPException: raise`, modeled by `catchHttp500`.
* Dynamic `dict` request bodies are association lists of JSON values (`JObj`),
  with Python truthiness (`JValue.truthy`) and `dict.get` (`jGet`/`jGetD`).
-/

namespace FinBackend

/-- The six per-category AI disclosure flags stored on a Users row. -/
structure Permissions where
  perm_assets : Bool
  perm_liabilities : Bool
  perm_transactions : Bool
  perm_investments : Bool
  perm_credit_score : Bool
  perm_epf_balance : Bool
deriving Repr, DecidableEq

/-- All six flags granted (the creation default). -/
def allPermsTrue : Permissions := ⟨true, true, true, true, true, true⟩

/-- All six flags denied. -/
def allPermsFalse : Permissions := ⟨false, false, false, false, false, false⟩

/-- A row of the Users table. -/
structure UserRow where
  user_id : String
  name : String
  credit_score : Option Int
  epf_balance : Option Int
  perms : Permissions
deriving Repr, DecidableEq

/-- A row of the Assets table. -/
structure AssetRow where
  user_id : String
  name : String
  type : String
  value : Int
deriving Repr, DecidableEq

/-- A row of the Liabilities table. -/
structure LiabilityRow where
  user_id : String
  name : String
  type : String
  outstanding_balance : Int
deriving Repr, DecidableEq

/-- A row of the Investments table. -/
structure InvestmentRow where
  user_id : String
  name : String
  ticker : String
  type : String
  quantity : Int
  current_value : Int
deriving Repr, DecidableEq

/-- A row of the Transactions table. -/
structure TransactionRow where
  user_id : String
  date : String
  description : String
  category : String
  amount : Int
  type : String
deriving Repr, DecidableEq

/-- The relational store: the five tables of the fintrack schema. -/
structure DB where
  users : List UserRow
  assets : List AssetRow
  liabilities : List LiabilityRow
  investments : List InvestmentRow
  transactions : List TransactionRow
deriving Repr, DecidableEq

/-- `SELECT ... FROM Users WHERE user_id = :uid` + `fetchone()`. -/
def DB.findUser (db : DB) (uid : String) : Option UserRow :=
  db.users.find? (fun r => r.user_id == uid)

/-- The stored permission flags of a user, when the row exists. -/
def DB.userPerms (db : DB) (uid : String) : Option Permissions :=
  (db.findUser uid).map (fun r => r.perms)

/-- `SELECT COALESCE(SUM(value), 0) FROM Assets WHERE user_id = :uid`. -/
def sumAssets (db : DB) (uid : String) : Int :=
  ((db.assets.filter (fun r => r.user_id == uid)).map (fun r => r.value)).sum

/-- `SELECT COALESCE(SUM(outstanding_balance), 0) FROM Liabilities WHERE user_id = :uid`. -/
def sumLiabilities (db : DB) (uid : String) : Int :=
  ((db.liabilities.filter (fun r => r.user_id == uid)).map
    (fun r => r.outstanding_balance)).sum

/-- `SELECT COALESCE(SUM(current_value), 0) FROM Investments WHERE user_id = :uid`. -/
def sumInvestments (db : DB) (uid : String) : Int :=
  ((db.investments.filter (fun r => r.user_id == uid)).map
    (fun r => r.current_value)).sum

/-- `UPDATE Users SET ... WHERE user_id = :uid`: rewrite every matching row. -/
def updateWhere (l : List UserRow) (uid : String) (f : UserRow → UserRow) : List UserRow :=
  l.map (fun r => if r.user_id == uid then f r else r)

/-- An HTTP error response: `HTTPException(status_code, detail)`. -/
structure HTTPError where
  status : Nat
  detail : String
deriving Repr, DecidableEq

/-- Exceptions a handler body can raise: an `HTTPException` or a plain exception. -/
inductive PyExc where
  | http (e : HTTPError)
  | plain (msg : String)
deriving Repr, DecidableEq

/-- A handler result: an error response or a 200 body. -/
abbrev Handler (α : Type) := Except HTTPError α

/-- The HTTP status of a handler result (success renders as 200). -/
def resStatus {α : Type} : Handler α → Nat
  | .error e => e.status
  | .ok _ => 200

/-- Python `str(HTTPException(s, d))` is `"{s}: {d}"`; the blanket handlers in
src/agent.py build their 500 detail from it. -/
def rewrap500 (e : HTTPError) : HTTPError :=
  ⟨500, toString e.status ++ ": " ++ e.detail⟩

/-- src/agent.py's handler shape: `except Exception as e: raise HTTPException(500, str(e))`.
It catches the body's own `HTTPException`s (they subclass `Exception`). -/
def catch500 {α : Type} : Except PyExc α → Handler α
  | .ok a => .ok a
  | .error (.http e) => .error (rewrap500 e)
  | .error (.plain m) => .error ⟨500, m⟩

/-- src/Routers/Users.py's handler shape:
`except HTTPException: raise` then `except Exception as e: 500 "Database error: ..."`. -/
def catchHttp500 {α : Type} : Except PyExc α → Handler α
  | .ok a => .ok a
  | .error (.http e) => .error e
  | .error (.plain m) => .error ⟨500, "Database error: " ++ m⟩

/-- A JSON value as carried by the dict-typed request bodies. -/
inductive JValue where
  | jnull
  | jbool (b : Bool)
  | jnum (n : Int)
  | jstr (s : String)
deriving Repr, DecidableEq

/-- Python truthiness of a JSON value (`None`, `False`, `0`, `""` are falsy). -/
def JValue.truthy : JValue → Bool
  | .jnull => false
  | .jbool b => b
  | .jnum n => n != 0
  | .jstr s => !(s == "")

/-- A dict-typed request body. -/
abbrev JObj := List (String × JValue)

/-- Python `body[k]` / `body.get(k)`: the first binding of the key, if any. -/
def jGet (o : JObj) (k : String) : Option JValue :=
  match o.find? (fun p => p.1 == k) with
  | some p => some p.2
  | none => none

/-- Python `k in body`. -/
def jHasKey (o : JObj) (k : String) : Bool :=
  (jGet o k).isSome

/-- Python `body.get(k, d)`. -/
def jGetD (o : JObj) (k : String) (d : JValue) : JValue :=
  (jGet o k).getD d

/-- Truthiness of `body.get(k)` (an absent key is `None`, hence falsy). -/
def pyTruthyAt (o : JObj) (k : String) : Bool :=
  match jGet o k with
  | some v => v.truthy
  | none => false

/-- The value written into a nullable integer column from `body.get(k)`:
an absent key writes SQL NULL. -/
def jIntCol (o : JObj) (k : String) : Option Int :=
  match jGet o k with
  | some (.jnum n) => some n
  | _ => none

/-- The value written into a nullable integer column from `body.get(k, d)`. -/
def jIntColD (o : JObj) (k : String) (d : Int) : Option Int :=
  match jGet o k with
  | some (.jnum n) => some n
  | some _ => none
  | none => some d

/-- The string extracted from a JSON value (request bodies of interest carry
`jstr` here; other shapes are serialized). -/
def jStrAt (o : JObj) (k : String) : String :=
  match jGet o k with
  | some (.jstr s) => s
  | some (.jnum n) => toString n
  | some (.jbool b) => toString b
  | _ => ""

/-- The email both user-info endpoints synthesize from the display name. -/
def emailOf (name : String) : String :=
  (name.toLower.replace " " ".") ++ "@financio.com"

/-- Body of the user-info endpoints that include the permission flags. -/
structure CurrentUserBody where
  user_id : String
  name : String
  email : String
  credit_score : Option Int
  epf_balance : Option Int
  permissions : Permissions
deriving Repr, DecidableEq

/-- Body of src/app/main.py's `GET /api/v1/users/me` (no permission block). -/
structure MainUserBody where
  id : String
  name : String
  email : String
  credit_score : Option Int
  epf_balance : Option Int
deriving Repr, DecidableEq

/-- Body of src/agent.py's `GET /api/v1/dashboard/summary`. -/
structure SummaryBody where
  total_assets : Int
  total_liabilities : Int
  epf_balance : Int
  credit_score : Int
  investment_portfolio : Int
deriving Repr, DecidableEq

/-- The shared SELECT of the two `/users/me` variants that return permissions:
row found → body, otherwise `HTTPException(404)`. -/
def selectUserWithPerms (db : DB) (user_id : String) : Except PyExc CurrentUserBody :=
  match db.findUser user_id with
  | some r => .ok ⟨r.user_id, r.name, emailOf r.name, r.credit_score, r.epf_balance, r.perms⟩
  | none => .error (.http ⟨404, "User not found"⟩)

/-- src/Routers/Users.py `GET /me`: the 404 passes through `except HTTPException: raise`. -/
def routers_get_current_user (db : DB) (user_id : String) : Handler CurrentUserBody :=
  catchHttp500 (selectUserWithPerms db user_id)

/-- src/agent.py `GET /api/v1/users/me`: the blanket `except Exception` rewraps
the handler's own 404 into a 500. -/
def agent_get_current_user (db : DB) (user_id : String) : Handler CurrentUserBody :=
  catch500 (selectUserWithPerms db user_id)

/-- src/app/main.py `GET /api/v1/users/me`: no try/except, so the 404 surfaces as 404. -/
def main_get_current_user (db : DB) (user_id : String) : Handler MainUserBody :=
  match db.findUser user_id with
  | none => .error ⟨404, "User not found"⟩
  | some r => .ok ⟨r.user_id, r.name, emailOf r.name, r.credit_score, r.epf_balance⟩

/-- src/agent.py `GET /api/v1/dashboard/summary`: COALESCE'd sums plus
`int(user_result[0]) if user_result else 750` and
`float(user_result[1]) if user_result else 0`; a missing user row yields a 200
with default data, never a 404.  (`int(None)`/`float(None)` on a NULL column of
an existing row raises a TypeError, rewrapped to 500.) -/
def agent_get_dashboard_summary (db : DB) (user_id : String) : Handler SummaryBody :=
  catch500 (
    match db.findUser user_id with
    | none =>
        .ok { total_assets := sumAssets db user_id
              total_liabilities := sumLiabilities db user_id
              epf_balance := 0
              credit_score := 750
              investment_portfolio := sumInvestments db user_id }
    | some r =>
        match r.credit_score, r.epf_balance with
        | some cs, some epf =>
            .ok { total_assets := sumAssets db user_id
                  total_liabilities := sumLiabilities db user_id
                  epf_balance := epf
                  credit_score := cs
                  investment_portfolio := sumInvestments db user_id }
        | _, _ => .error (.plain "float() argument must not be NoneType"))

/-- The six flags written by the update-permissions and create-user bodies:
`permissions.get(key, True)` for each flag. -/
def permsFromBody (permissions : JObj) : Permissions :=
  { perm_assets := (jGetD permissions "perm_assets" (.jbool true)).truthy
    perm_liabilities := (jGetD permissions "perm_liabilities" (.jbool true)).truthy
    perm_transactions := (jGetD permissions "perm_transactions" (.jbool true)).truthy
    perm_investments := (jGetD permissions "perm_investments" (.jbool true)).truthy
    perm_credit_score := (jGetD permissions "perm_credit_score" (.jbool true)).truthy
    perm_epf_balance := (jGetD permissions "perm_epf_balance" (.jbool true)).truthy }

/-- The Users row inserted by the create-user endpoints (`creditDefault` is 750 in
src/Routers/Users.py and 0 in src/agent.py). -/
def userFromBody (user_data : JObj) (creditDefault : Int) : UserRow :=
  { user_id := jStrAt user_data "user_id"
    name := jStrAt user_data "name"
    credit_score := jIntColD user_data "credit_score" creditDefault
    epf_balance := jIntColD user_data "epf_balance" 0
    perms := permsFromBody user_data }

/-- src/Routers/Users.py `POST /create-user`: required-field checks, duplicate
check (409 before any write), then INSERT + commit. -/
def routers_create_user (db : DB) (user_data : JObj) : Handler String × DB :=
  if !(jHasKey user_data "user_id") then
    (.error ⟨400, "Missing required field: user_id"⟩, db)
  else if !(jHasKey user_data "name") then
    (.error ⟨400, "Missing required field: name"⟩, db)
  else
    match db.findUser (jStrAt user_data "user_id") with
    | some _ => (.error ⟨409, "User already exists"⟩, db)
    | none =>
        (.ok "User created successfully",
         { db with users := db.users ++ [userFromBody user_data 750] })

/-- src/agent.py `POST /api/v1/users/create`: same logic with credit default 0, but
its blanket `except Exception` rewraps the handler's own 400/409 into a 500. -/
def agent_create_user (db : DB) (user_data : JObj) : Handler String × DB :=
  if !(jHasKey user_data "user_id") then
    (.error (rewrap500 ⟨400, "Missing required field: user_id"⟩), db)
  else if !(jHasKey user_data "name") then
    (.error (rewrap500 ⟨400, "Missing required field: name"⟩), db)
  else
    match db.findUser (jStrAt user_data "user_id") with
    | some _ => (.error (rewrap500 ⟨409, "User already exists"⟩), db)
    | none =>
        (.ok "User created successfully",
         { db with users := db.users ++ [userFromBody user_data 0] })

/-- src/Routers/Users.py `POST /update-profile`: rejects with 400 when
`not request.get("credit_score") and not request.get("epf_balance")` (Python
truthiness, so `0`, `0.0`, `""` and `null` count as absent); then 404 if the user
is missing; otherwise UPDATE writes both columns from `request.get(...)`
(an absent field writes NULL) and commits. -/
def routers_update_user_profile (db : DB) (request : JObj) (user_id : String) :
    Handler String × DB :=
  if !(pyTruthyAt request "credit_score") && !(pyTruthyAt request "epf_balance") then
    (.error ⟨400, "At least one field (credit_score or epf_balance) is required"⟩, db)
  else
    match db.findUser user_id with
    | none => (.error ⟨404, "User not found"⟩, db)
    | some _ =>
        (.ok "Profile updated successfully",
         { db with users := updateWhere db.users user_id (fun r =>
             { r with credit_score := jIntCol request "credit_score"
                      epf_balance := jIntCol request "epf_balance" }) })

/-- src/Routers/Users.py `POST /update-permissions`: 404 if the user is missing,
otherwise all six flags are rewritten from `permissions.get(key, True)`. -/
def routers_update_ai_permissions (db : DB) (permissions : JObj) (user_id : String) :
    Handler String × DB :=
  match db.findUser user_id with
  | none => (.error ⟨404, "User not found"⟩, db)
  | some _ =>
      (.ok "AI permissions updated successfully",
       { db with users := updateWhere db.users user_id (fun r =>
           { r with perms := permsFromBody permissions }) })

/-- The five DELETE statements of `delete_user_account` in source order
(Transactions, Assets, Liabilities, Investments, then the Users row);
`delStmt uid k` is the effect of statement `k` on the uncommitted state. -/
def delStmt (uid : String) : Nat → DB → DB
  | 0, d => { d with transactions := d.transactions.filter (fun r => !(r.user_id == uid)) }
  | 1, d => { d with assets := d.assets.filter (fun r => !(r.user_id == uid)) }
  | 2, d => { d with liabilities := d.liabilities.filter (fun r => !(r.user_id == uid)) }
  | 3, d => { d with investments := d.investments.filter (fun r => !(r.user_id == uid)) }
  | 4, d => { d with users := d.users.filter (fun r => !(r.user_id == uid)) }
  | _, d => d

/-- The pending (uncommitted) transaction state after the first `k` of the five
DELETE statements. -/
def pendingAfter (db : DB) (uid : String) : Nat → DB
  | 0 => db
  | Nat.succ k => delStmt uid k (pendingAfter db uid k)

/-- src/Routers/Users.py `DELETE /delete-account`: existence check (404 before any
write), then the five DELETEs on one connection followed by a single
`conn.commit()`.  `failAt = some k` (k < 5) models a database error raised by
statement `k`: the transaction is never committed, so the durable state stays
`db` and the blanket handler answers 500. -/
def routers_delete_user_account (db : DB) (uid : String) (failAt : Option Nat) :
    Handler String × DB :=
  if (db.findUser uid).isNone then
    (.error ⟨404, "User not found"⟩, db)
  else
    match failAt with
    | some k =>
        if k < 5 then
          (.error ⟨500, "Database error: statement failed"⟩, db)
        else
          (.ok "User account deleted successfully", pendingAfter db uid 5)
    | none => (.ok "User account deleted successfully", pendingAfter db uid 5)

/-- src/agent.py `DELETE /api/v1/users/delete-account` (lines 941-976): the same
existence check and five-DELETE-then-single-commit sequence as the router
variant, but its blanket `except Exception` catches the handler's own
`HTTPException(404)` and rewraps it as 500 with detail `"404: User not found"`;
a database error during a statement likewise surfaces as 500 with `str(e)`. -/
def agent_delete_user_account (db : DB) (uid : String) (failAt : Option Nat) :
    Handler String × DB :=
  if (db.findUser uid).isNone then
    (.error (rewrap500 ⟨404, "User not found"⟩), db)
  else
    match failAt with
    | some k =>
        if k < 5 then
          (.error ⟨500, "statement failed"⟩, db)
        else
          (.ok "User account deleted successfully", pendingAfter db uid 5)
    | none => (.ok "User account deleted successfully", pendingAfter db uid 5)

/-- The body of `POST /api/v1/ai/chat` (`QueryRequest`). -/
structure ChatInput where
  question : String
  user_id : String
deriving Repr, DecidableEq

/-- The success body of `POST /api/v1/ai/chat`. -/
structure ChatResponse where
  user_id : String
  question : String
  answer : String
deriving Repr, DecidableEq

/-- The sequential chain built by `init_agent` (src/app/ai_agent.py lines 20-44):
a parallel dict collecting the reformulated question and the passthrough of the
original question, then `RunnablePassthrough.assign` invoking the SQL agent on
the reformulated question, then the synthesizer over the original question and
the SQL output.  Each stage is one effectful hosted call in the monad `m`. -/
def full_chain_invoke {m : Type → Type} [Monad m]
    (query_reformulator : String → String → m String)
    (sql_agent : String → m String)
    (response_synthesizer : String → String → m String)
    (input : ChatInput) : m String := do
  let reformulated_question ← query_reformulator input.question input.user_id
  let original_question := input.question
  let sql_data ← sql_agent reformulated_question
  response_synthesizer original_question sql_data

/-- The three pipeline stages. -/
inductive Stage where
  | reformulating
  | executing
  | synthesizing
deriving Repr, DecidableEq

/-- A run that logs which stage fired, on top of fallible hosted calls. -/
abbrev TraceM := StateT (List Stage) (Except String)

/-- Instrument a two-argument stage: log its tag when (and only when) it runs. -/
def traced2 (st : Stage) (f : String → String → Except String String)
    (a b : String) : TraceM String :=
  fun log => (f a b).map (fun v => (v, log ++ [st]))

/-- Instrument a one-argument stage: log its tag when (and only when) it runs. -/
def traced1 (st : Stage) (f : String → Except String String) (a : String) :
    TraceM String :=
  fun log => (f a).map (fun v => (v, log ++ [st]))

/-- The chain run with instrumented stages, starting from an empty log. -/
def full_chain_invoke_traced
    (query_reformulator : String → String → Except String String)
    (sql_agent : String → Except String String)
    (response_synthesizer : String → String → Except String String)
    (input : ChatInput) : Except String (String × List Stage) :=
  (full_chain_invoke (m := TraceM)
    (traced2 .reformulating query_reformulator)
    (traced1 .executing sql_agent)
    (traced2 .synthesizing response_synthesizer)
    input).run []

/-- `POST /api/v1/ai/chat` (src/app/main.py lines 47-64 = src/agent.py lines
1044-1063): 503 when the global chain handle is `None`; otherwise the chain runs
on `{question, user_id}` and its answer is echoed back with the request fields;
any chain exception becomes `HTTPException(500, "An internal error occurred: {e}")`. -/
def enhanced_ai_chat (full_chain : Option (ChatInput → Except String String))
    (request : ChatInput) : Handler ChatResponse :=
  match full_chain with
  | none => .error ⟨503, "AI Agent is not initialized. Check server logs."⟩
  | some chain =>
      match chain request with
      | .ok final_answer => .ok ⟨request.user_id, request.question, final_answer⟩
      | .error e => .error ⟨500, "An internal error occurred: " ++ e⟩

/-- The tables of the fintrack schema. -/
inductive TableName where
  | users
  | assets
  | liabilities
  | investments
  | transactions
deriving Repr, DecidableEq, BEq

/-- The tables reflected by `SQLDatabase(db_engine)` in `init_agent`
(src/app/ai_agent.py line 18): constructed with neither `include_tables` nor
`ignore_tables`, it reflects the whole schema. -/
def sqlDatabase_tables : List TableName :=
  [.users, .assets, .liabilities, .investments, .transactions]

/-- The schema view handed to `create_sql_agent`, as a function of the requesting
user's permission flags.  `init_agent` builds the view once, never consults the
flags, and `enhanced_ai_chat` passes only `{question, user_id}` into the chain,
so the view is the full schema for every `Permissions` value. -/
def schemaView (_perms : Permissions) : List TableName :=
  sqlDatabase_tables

/-- Modelled from the spec: the permitted schema view of section 4.3 — the
category tables whose permission flag is granted (this enforcement is absent
from the source; the definition exists to compare the reflected view against). -/
def spec_permittedTables (p : Permissions) : List TableName :=
  (if p.perm_assets then [TableName.assets] else [])
    ++ (if p.perm_liabilities then [TableName.liabilities] else [])
    ++ (if p.perm_transactions then [TableName.transactions] else [])
    ++ (if p.perm_investments then [TableName.investments] else [])

/-- The portion of the database reachable through a list of reflected tables. -/
def visibleDB (tables : List TableName) (db : DB) : DB :=
  { users := if tables.contains .users then db.users else []
    assets := if tables.contains .assets then db.assets else []
    liabilities := if tables.contains .liabilities then db.liabilities else []
    investments := if tables.contains .investments then db.investments else []
    transactions := if tables.contains .transactions then db.transactions else [] }

/-- One full request to `POST /api/v1/ai/chat` against database `db`, with the
hosted calls abstracted: the SQL agent's semantics is a function of the data the
reflected schema exposes to the toolkit.  Per `init_agent`, that is
`visibleDB sqlDatabase_tables db` — the whole database, with no permission
lookup anywhere on the path. -/
def ai_chat_endpoint (db : DB)
    (query_reformulator : String → String → Except String String)
    (sql_agent_sem : DB → String → Except String String)
    (response_synthesizer : String → String → Except String String)
    (req : ChatInput) : Handler ChatResponse :=
  enhanced_ai_chat
    (some (full_chain_invoke (m := Except String)
      query_reformulator
      (sql_agent_sem (visibleDB sqlDatabase_tables db))
      response_synthesizer))
    req

/-- Demo user `user_001` with every permission flag denied. -/
def demoUserDenied : UserRow :=
  ⟨"user_001", "Alice Smith", some 720, some 1000, allPermsFalse⟩

/-- Demo user `user_001` with every permission flag granted. -/
def demoUserAllowed : UserRow :=
  ⟨"user_001", "Alice Smith", some 720, some 1000, allPermsTrue⟩

/-- A single asset of `user_001` worth 5000. -/
def demoAsset : AssetRow :=
  ⟨"user_001", "Savings Account", "cash", 5000⟩

/-- Database state: `user_001` has revoked every category, yet owns one asset. -/
def db_denied : DB := ⟨[demoUserDenied], [demoAsset], [], [], []⟩

/-- Database state: `user_001` grants every category and owns one asset. -/
def db_allowed : DB := ⟨[demoUserAllowed], [demoAsset], [], [], []⟩

/-- An update-permissions body revoking all six categories. -/
def allFalseBody : JObj :=
  [("perm_assets", .jbool false), ("perm_liabilities", .jbool false),
   ("perm_transactions", .jbool false), ("perm_investments", .jbool false),
   ("perm_credit_score", .jbool false), ("perm_epf_balance", .jbool false)]

/-- A deterministic stand-in for the hosted reformulation call. -/
def demoReformulator (q uid : String) : Except String String :=
  .ok ("For user_id " ++ uid ++ ": " ++ q)

/-- One possible SQL-agent behavior within the access the reflected schema
grants: answer with the total value of `user_001`'s reachable Assets rows. -/
def demoSqlAgent (vdb : DB) (_q : String) : Except String String :=
  .ok (toString (sumAssets vdb "user_001"))

/-- A deterministic stand-in for the hosted synthesis call. -/
def demoSynthesizer (_orig sql_data : String) : Except String String :=
  .ok ("Your total assets are " ++ sql_data)

/-- The asset question used in the disclosure scenarios. -/
def assetQuestion : ChatInput := ⟨"What are my assets?", "user_001"⟩

/-- A two-user database with rows of `u1` in all five tables, for the
delete-account scenario. -/
def db10 : DB :=
  ⟨[⟨"u1", "A", some 1, some 2, allPermsTrue⟩, ⟨"u2", "B", some 3, some 4, allPermsTrue⟩],
   [⟨"u1", "car", "vehicle", 10⟩, ⟨"u2", "flat", "estate", 20⟩],
   [⟨"u1", "loan", "auto", 5⟩],
   [⟨"u1", "fund", "FND", "mutual_fund", 1, 7⟩],
   [⟨"u1", "2025-01-01", "coffee", "dining", 3, "expense"⟩]⟩

/-! ## Helper lemmas -/

/-- Evaluation of the instrumented chain: each stage fires at most once, in
source order, the SQL agent consuming the reformulator's output and the
synthesizer consuming the original question and the SQL output; the first
failing stage ends the run. -/
theorem full_chain_invoke_traced_eq (qr : String → String → Except String String)
    (sa : String → Except String String) (rs : String → String → Except String String)
    (input : ChatInput) :
    full_chain_invoke_traced qr sa rs input
      = match qr input.question input.user_id with
        | .error e => .error e
        | .ok r =>
          match sa r with
          | .error e => .error e
          | .ok s =>
            match rs input.question s with
            | .error e => .error e
            | .ok a => .ok (a, [Stage.reformulating, Stage.executing, Stage.synthesizing]) := by
  unfold full_chain_invoke_traced full_chain_invoke traced2 traced1
  cases hqr : qr input.question input.user_id with
  | error e => simp [StateT.run, hqr, Except.map, bind, StateT.bind, Except.bind]
  | ok r =>
    cases hsa : sa r with
    | error e => simp [StateT.run, hqr, hsa, Except.map, bind, StateT.bind, Except.bind]
    | ok s =>
      cases hrs : rs input.question s with
      | error e => simp [StateT.run, hqr, hsa, hrs, Except.map, bind, StateT.bind, Except.bind]
      | ok a => simp [StateT.run, hqr, hsa, hrs, Except.map, bind, StateT.bind, Except.bind]

/-- `find?` over an `UPDATE ... WHERE user_id = :uid` rewrite: the found row is
the rewritten one, provided the rewrite keeps the key. -/
theorem find_updateWhere (l : List UserRow) (uid : String) (f : UserRow → UserRow)
    (hf : ∀ r, (f r).user_id = r.user_id) :
    (updateWhere l uid f).find? (fun r => r.user_id == uid)
      = (l.find? (fun r => r.user_id == uid)).map f := by
  induction l with
  | nil => rfl
  | cons a l ih =>
    simp only [updateWhere, List.map_cons]
    by_cases h : (a.user_id == uid) = true
    · have hp : ((f a).user_id == uid) = true := by rw [hf]; exact h
      rw [if_pos h]
      simp [List.find?_cons, hp, h]
    · have h' : (a.user_id == uid) = false := by simpa using h
      have hp : ((f a).user_id == uid) = false := by rw [hf]; exact h'
      rw [if_neg (by simp [h'])]
      simpa [List.find?_cons, hp, h', updateWhere] using ih

/-- The pending state after all five DELETE statements: every table filtered on
the user key. -/
theorem pendingAfter_five (db : DB) (uid : String) :
    pendingAfter db uid 5
      = { users := db.users.filter (fun r => !(r.user_id == uid))
          assets := db.assets.filter (fun r => !(r.user_id == uid))
          liabilities := db.liabilities.filter (fun r => !(r.user_id == uid))
          investments := db.investments.filter (fun r => !(r.user_id == uid))
          transactions := db.transactions.filter (fun r => !(r.user_id == uid)) } := rfl

/-! ## Claims -/

/-- C1: the claim says a user with all six flags denied never receives figures
from a denied category, through schema exclusion or a post-execution check.
The code does neither: `user_001` has every flag denied, yet the Assets table is
in the schema view handed to the toolkit (which the spec-side permitted view
would exclude — it is empty), there is no post-execution check, and a run of the
chat endpoint whose SQL agent reads the reachable Assets rows returns the asset
figure 5000 inside the answer. -/
theorem denied_category_still_disclosed :
    db_denied.userPerms "user_001" = some allPermsFalse
    ∧ sqlDatabase_tables.contains TableName.assets = true
    ∧ schemaView allPermsFalse = sqlDatabase_tables
    ∧ spec_permittedTables allPermsFalse = []
    ∧ ai_chat_endpoint db_denied demoReformulator demoSqlAgent demoSynthesizer assetQuestion
        = .ok ⟨"user_001", "What are my assets?", "Your total assets are 5000"⟩
    ∧ ∃ p, "Your total assets are 5000" = p ++ toString (sumAssets db_denied "user_001") :=
  ⟨rfl, rfl, rfl, rfl, rfl, ⟨"Your total assets are ", rfl⟩⟩

/-- C3: the claim says permissions are re-read on each chat request so that a
revocation yields a refusal on the immediately following request.  The chat
pipeline never reads the flags at all: the schema view is the full schema for
every `Permissions` value; revoking all six flags through the actual
update-permissions endpoint is durably stored, yet the immediately following
chat request returns the same answer as before the revocation — the asset
figure, not a refusal. -/
theorem revocation_has_no_effect :
    (∀ p : Permissions, schemaView p = sqlDatabase_tables)
    ∧ (routers_update_ai_permissions db_allowed allFalseBody "user_001").2 = db_denied
    ∧ db_denied.userPerms "user_001" = some allPermsFalse
    ∧ ai_chat_endpoint db_denied demoReformulator demoSqlAgent demoSynthesizer assetQuestion
        = ai_chat_endpoint db_allowed demoReformulator demoSqlAgent demoSynthesizer assetQuestion
    ∧ ai_chat_endpoint db_denied demoReformulator demoSqlAgent demoSynthesizer assetQuestion
        = .ok ⟨"user_001", "What are my assets?", "Your total assets are 5000"⟩ :=
  ⟨fun _ => rfl, rfl, rfl, rfl, rfl⟩

/-- C4: creating a user with only `{user_id, name}` succeeds with all six flags
true (shown for the router; src/agent.py differs only in the credit default).
A duplicate `user_id` leaves the row count unchanged in both variants, and the
router answers 409; but src/agent.py's blanket `except Exception` catches its
own `HTTPException(409)` and the client receives 500 with detail
`"409: User already exists"`, not the Conflict the claim states. -/
theorem create_user_defaults_and_duplicate :
    routers_create_user ⟨[], [], [], [], []⟩ [("user_id", .jstr "u9"), ("name", .jstr "Bob")]
      = (.ok "User created successfully",
         ⟨[⟨"u9", "Bob", some 750, some 0, allPermsTrue⟩], [], [], [], []⟩)
    ∧ agent_create_user ⟨[], [], [], [], []⟩ [("user_id", .jstr "u9"), ("name", .jstr "Bob")]
      = (.ok "User created successfully",
         ⟨[⟨"u9", "Bob", some 0, some 0, allPermsTrue⟩], [], [], [], []⟩)
    ∧ routers_create_user db_allowed [("user_id", .jstr "user_001"), ("name", .jstr "X")]
      = (.error ⟨409, "User already exists"⟩, db_allowed)
    ∧ agent_create_user db_allowed [("user_id", .jstr "user_001"), ("name", .jstr "X")]
      = (.error ⟨500, "409: User already exists"⟩, db_allowed) :=
  ⟨rfl, rfl, rfl, rfl⟩

/-- C5 counterexample: a hosted-model failure inside the chain is answered with
HTTP 500, not 502 or 503, and its detail embeds the raw upstream exception text
verbatim, contradicting the claim on this concrete failure. -/
theorem upstream_error_counterexample :
    enhanced_ai_chat (some (fun _ => .error "DeadlineExceeded from hosted model")) assetQuestion
      = .error ⟨500, "An internal error occurred: DeadlineExceeded from hosted model"⟩
    ∧ resStatus (enhanced_ai_chat
        (some (fun _ => .error "DeadlineExceeded from hosted model")) assetQuestion) ≠ 502
    ∧ resStatus (enhanced_ai_chat
        (some (fun _ => .error "DeadlineExceeded from hosted model")) assetQuestion) ≠ 503
    ∧ ∃ p, "An internal error occurred: DeadlineExceeded from hosted model"
        = p ++ "DeadlineExceeded from hosted model" :=
  ⟨rfl, by decide, by decide, ⟨"An internal error occurred: ", rfl⟩⟩

/-- C5 (amended): every chain failure — hosted model or SQL toolkit — surfaces
as HTTP 500 whose detail is `"An internal error occurred: "` followed by the raw
exception text; it is an error response, distinguishable from a success, but
the status is never 502/503 and the raw text is not suppressed. -/
theorem upstream_error_maps_to_500
    (chain : ChatInput → Except String String) (req : ChatInput) (e : String)
    (h : chain req = .error e) :
    enhanced_ai_chat (some chain) req
      = .error ⟨500, "An internal error occurred: " ++ e⟩ := by
  simp [enhanced_ai_chat, h]

/-- C5 witness: the amended behavior evaluated on a concrete failing chain. -/
theorem upstream_error_maps_to_500_witness :
    enhanced_ai_chat (some (fun _ => .error "boom")) assetQuestion
      = .error ⟨500, "An internal error occurred: boom"⟩ :=
  upstream_error_maps_to_500 (fun _ => .error "boom") assetQuestion "boom" rfl

/-- C6: with the pipeline handle `None` every chat request is answered 503 (the
result is the same constant for every request, no stage being reachable); with
an initialized chain that succeeds, the response echoes the request's `user_id`
and `question` unchanged next to the chain's answer. -/
theorem chat_endpoint_init_and_echo :
    (∀ req : ChatInput,
      enhanced_ai_chat none req
        = .error ⟨503, "AI Agent is not initialized. Check server logs."⟩)
    ∧ (∀ (chain : ChatInput → Except String String) (req : ChatInput) (ans : String),
        chain req = .ok ans →
        enhanced_ai_chat (some chain) req = .ok ⟨req.user_id, req.question, ans⟩) := by
  constructor
  · intro req; rfl
  · intro chain req ans h; simp [enhanced_ai_chat, h]

/-- C6 witness: both branches evaluated on concrete requests. -/
theorem chat_endpoint_init_and_echo_witness :
    enhanced_ai_chat none assetQuestion
      = .error ⟨503, "AI Agent is not initialized. Check server logs."⟩
    ∧ enhanced_ai_chat (some (fun _ => .ok "hello")) assetQuestion
      = .ok ⟨"user_001", "What are my assets?", "hello"⟩ :=
  ⟨chat_endpoint_init_and_echo.1 assetQuestion,
   chat_endpoint_init_and_echo.2 (fun _ => .ok "hello") assetQuestion "hello" rfl⟩

/-- C7: on a successful run the instrumented chain fires reformulation, then SQL
execution on the reformulated question, then synthesis on the original question
and the SQL output — each exactly once, in that order, with no retries; a
failure of any stage ends the run in the error (and, the stage functions being
universally quantified, the result after an early failure does not depend on the
later stages at all). -/
theorem chain_stage_order
    (qr : String → String → Except String String)
    (sa : String → Except String String)
    (rs : String → String → Except String String)
    (q uid : String) :
    (∀ r s a, qr q uid = .ok r → sa r = .ok s → rs q s = .ok a →
      full_chain_invoke_traced qr sa rs ⟨q, uid⟩
        = .ok (a, [Stage.reformulating, Stage.executing, Stage.synthesizing]))
    ∧ (∀ e, qr q uid = .error e →
        full_chain_invoke_traced qr sa rs ⟨q, uid⟩ = .error e)
    ∧ (∀ r e, qr q uid = .ok r → sa r = .error e →
        full_chain_invoke_traced qr sa rs ⟨q, uid⟩ = .error e)
    ∧ (∀ r s e, qr q uid = .ok r → sa r = .ok s → rs q s = .error e →
        full_chain_invoke_traced qr sa rs ⟨q, uid⟩ = .error e) := by
  refine ⟨?_, ?_, ?_, ?_⟩
  · intro r s a h1 h2 h3
    rw [full_chain_invoke_traced_eq]
    simp [h1, h2, h3]
  · intro e h1
    rw [full_chain_invoke_traced_eq]
    simp [h1]
  · intro r e h1 h2
    rw [full_chain_invoke_traced_eq]
    simp [h1, h2]
  · intro r s e h1 h2 h3
    rw [full_chain_invoke_traced_eq]
    simp [h1, h2, h3]

/-- C7 witness: a concrete all-success run produces the three-stage trace. -/
theorem chain_stage_order_witness :
    full_chain_invoke_traced (fun _ _ => .ok "RQ") (fun _ => .ok "DATA")
        (fun _ _ => .ok "ANS") ⟨"q", "u"⟩
      = .ok ("ANS", [Stage.reformulating, Stage.executing, Stage.synthesizing]) :=
  (chain_stage_order (fun _ _ => .ok "RQ") (fun _ => .ok "DATA")
    (fun _ _ => .ok "ANS") "q" "u").1 "RQ" "DATA" "ANS" rfl rfl rfl

/-- C2 counterexample: on a nonexistent user, src/agent.py's `/api/v1/users/me`
answers 500 (its blanket `except Exception` rewraps its own 404), and
`/api/v1/dashboard/summary` answers 200 with default data (credit score 750,
zero sums) — neither is the 404 the claim states. -/
theorem nonexistent_user_get_counterexample :
    resStatus (agent_get_current_user ⟨[], [], [], [], []⟩ "ghost") = 500
    ∧ agent_get_current_user ⟨[], [], [], [], []⟩ "ghost"
        = .error ⟨500, "404: User not found"⟩
    ∧ resStatus (agent_get_dashboard_summary ⟨[], [], [], [], []⟩ "ghost") = 200
    ∧ agent_get_dashboard_summary ⟨[], [], [], [], []⟩ "ghost" = .ok ⟨0, 0, 0, 750, 0⟩ :=
  ⟨rfl, rfl, rfl, rfl⟩

/-- C2 (amended): for a nonexistent user_id, the user-info GETs of
src/app/main.py and src/Routers/Users.py answer 404; src/agent.py's
`/api/v1/users/me` converts its own 404 into a 500 whose detail is
`"404: User not found"`; and src/agent.py's `/api/v1/dashboard/summary`
answers 200 with default data (COALESCE'd sums, credit score 750,
EPF balance 0). -/
theorem nonexistent_user_get_statuses (db : DB) (uid : String)
    (h : db.findUser uid = none) :
    main_get_current_user db uid = .error ⟨404, "User not found"⟩
    ∧ routers_get_current_user db uid = .error ⟨404, "User not found"⟩
    ∧ agent_get_current_user db uid = .error ⟨500, "404: User not found"⟩
    ∧ agent_get_dashboard_summary db uid
        = .ok ⟨sumAssets db uid, sumLiabilities db uid, 0, 750, sumInvestments db uid⟩ := by
  refine ⟨?_, ?_, ?_, ?_⟩
  · simp [main_get_current_user, h]
  · simp [routers_get_current_user, catchHttp500, selectUserWithPerms, h]
  · simp only [agent_get_current_user, catch500, selectUserWithPerms, h, rewrap500]
    rfl
  · simp [agent_get_dashboard_summary, catch500, h]

/-- C2 witness: the four statuses evaluated on an empty database. -/
theorem nonexistent_user_get_statuses_witness :
    main_get_current_user ⟨[], [], [], [], []⟩ "nobody" = .error ⟨404, "User not found"⟩
    ∧ routers_get_current_user ⟨[], [], [], [], []⟩ "nobody" = .error ⟨404, "User not found"⟩
    ∧ agent_get_current_user ⟨[], [], [], [], []⟩ "nobody" = .error ⟨500, "404: User not found"⟩
    ∧ agent_get_dashboard_summary ⟨[], [], [], [], []⟩ "nobody" = .ok ⟨0, 0, 0, 750, 0⟩ :=
  nonexistent_user_get_statuses ⟨[], [], [], [], []⟩ "nobody" rfl

/-- C8 counterexample: a body containing `credit_score` with value `0` — the
field is present — is still rejected with 400, because the guard tests Python
truthiness (`not request.get(...)`), contradicting the claim that a request with
at least one field present is never rejected with 400. -/
theorem update_profile_falsy_counterexample :
    jHasKey [("credit_score", JValue.jnum 0)] "credit_score" = true
    ∧ routers_update_user_profile db_allowed [("credit_score", .jnum 0)] "user_001"
      = (.error ⟨400, "At least one field (credit_score or epf_balance) is required"⟩,
         db_allowed) :=
  ⟨rfl, rfl⟩

/-- C8 (amended): the update-profile endpoint answers 400 — leaving the
database untouched — exactly when both fields are absent or carry falsy values
(`0`, `0.0`, `""`, `null`); when at least one field carries a truthy value the
request is never rejected with 400 (it proceeds to the 404 check or the
update). -/
theorem update_profile_validation (db : DB) (body : JObj) (uid : String) :
    (pyTruthyAt body "credit_score" = false → pyTruthyAt body "epf_balance" = false →
      routers_update_user_profile db body uid
        = (.error ⟨400, "At least one field (credit_score or epf_balance) is required"⟩,
           db))
    ∧ ((pyTruthyAt body "credit_score" = true ∨ pyTruthyAt body "epf_balance" = true) →
      resStatus (routers_update_user_profile db body uid).1 ≠ 400) := by
  constructor
  · intro h1 h2
    simp [routers_update_user_profile, h1, h2]
  · intro h
    have hcond : (!(pyTruthyAt body "credit_score")
        && !(pyTruthyAt body "epf_balance")) = false := by
      rcases h with h | h <;> simp [h]
    simp only [routers_update_user_profile, hcond, Bool.false_eq_true, if_false]
    cases hf : db.findUser uid <;> simp [resStatus]

/-- C8 witness: the empty body is rejected with 400, and a truthy
`credit_score` is not. -/
theorem update_profile_validation_witness :
    routers_update_user_profile db_allowed ([] : JObj) "user_001"
      = (.error ⟨400, "At least one field (credit_score or epf_balance) is required"⟩,
         db_allowed)
    ∧ resStatus (routers_update_user_profile db_allowed
        [("credit_score", JValue.jnum 700)] "user_001").1 ≠ 400 :=
  ⟨(update_profile_validation db_allowed [] "user_001").1 rfl rfl,
   (update_profile_validation db_allowed
     [("credit_score", JValue.jnum 700)] "user_001").2 (Or.inl rfl)⟩

/-- C9: for an existing user and any dict-typed permissions body, the stored row
after update-permissions carries exactly `permsFromBody body`, discarding the
previous flags entirely: each flag equals the body's value when the key is
present (shown for boolean values) and `true` when the key is omitted — a
partial body silently re-grants every omitted permission whatever the old flag
was. -/
theorem omitted_permission_regranted (db : DB) (uid : String) (body : JObj)
    (r : UserRow) (hfind : db.findUser uid = some r) :
    ((routers_update_ai_permissions db body uid).2).findUser uid
        = some { r with perms := permsFromBody body }
    ∧ (jGet body "perm_assets" = none → (permsFromBody body).perm_assets = true)
    ∧ (∀ b, jGet body "perm_assets" = some (.jbool b) →
        (permsFromBody body).perm_assets = b)
    ∧ (jGet body "perm_liabilities" = none → (permsFromBody body).perm_liabilities = true)
    ∧ (∀ b, jGet body "perm_liabilities" = some (.jbool b) →
        (permsFromBody body).perm_liabilities = b)
    ∧ (jGet body "perm_transactions" = none → (permsFromBody body).perm_transactions = true)
    ∧ (∀ b, jGet body "perm_transactions" = some (.jbool b) →
        (permsFromBody body).perm_transactions = b)
    ∧ (jGet body "perm_investments" = none → (permsFromBody body).perm_investments = true)
    ∧ (∀ b, jGet body "perm_investments" = some (.jbool b) →
        (permsFromBody body).perm_investments = b)
    ∧ (jGet body "perm_credit_score" = none → (permsFromBody body).perm_credit_score = true)
    ∧ (∀ b, jGet body "perm_credit_score" = some (.jbool b) →
        (permsFromBody body).perm_credit_score = b)
    ∧ (jGet body "perm_epf_balance" = none → (permsFromBody body).perm_epf_balance = true)
    ∧ (∀ b, jGet body "perm_epf_balance" = some (.jbool b) →
        (permsFromBody body).perm_epf_balance = b) := by
  refine ⟨?_, ?_, ?_, ?_, ?_, ?_, ?_, ?_, ?_, ?_, ?_, ?_, ?_⟩
  · have hstep : (routers_update_ai_permissions db body uid).2
        = { db with users :=
              updateWhere db.users uid (fun s => { s with perms := permsFromBody body }) } := by
      simp [routers_update_ai_permissions, hfind]
    rw [hstep]
    show (updateWhere db.users uid _).find? (fun s => s.user_id == uid) = _
    rw [find_updateWhere db.users uid
      (fun s => { s with perms := permsFromBody body }) (fun s => rfl)]
    rw [show db.users.find? (fun s => s.user_id == uid) = some r from hfind]
    rfl
  · intro h; simp [permsFromBody, jGetD, h, JValue.truthy]
  · intro b h; simp [permsFromBody, jGetD, h, JValue.truthy]
  · intro h; simp [permsFromBody, jGetD, h, JValue.truthy]
  · intro b h; simp [permsFromBody, jGetD, h, JValue.truthy]
  · intro h; simp [permsFromBody, jGetD, h, JValue.truthy]
  · intro b h; simp [permsFromBody, jGetD, h, JValue.truthy]
  · intro h; simp [permsFromBody, jGetD, h, JValue.truthy]
  · intro b h; simp [permsFromBody, jGetD, h, JValue.truthy]
  · intro h; simp [permsFromBody, jGetD, h, JValue.truthy]
  · intro b h; simp [permsFromBody, jGetD, h, JValue.truthy]
  · intro h; simp [permsFromBody, jGetD, h, JValue.truthy]
  · intro b h; simp [permsFromBody, jGetD, h, JValue.truthy]

/-- C9 witness: a body setting only `perm_assets := false` leaves that flag
false and re-grants the omitted `perm_liabilities`. -/
theorem omitted_permission_regranted_witness :
    ((routers_update_ai_permissions db_allowed
        [("perm_assets", JValue.jbool false)] "user_001").2).findUser "user_001"
      = some { demoUserAllowed with
                 perms := permsFromBody [("perm_assets", JValue.jbool false)] }
    ∧ (permsFromBody [("perm_assets", JValue.jbool false)]).perm_assets = false
    ∧ (permsFromBody [("perm_assets", JValue.jbool false)]).perm_liabilities = true := by
  have h := omitted_permission_regranted db_allowed "user_001"
    [("perm_assets", JValue.jbool false)] demoUserAllowed rfl
  exact ⟨h.1, h.2.2.1 false rfl, h.2.2.2.1 rfl⟩

/-- C10: on a nonexistent user_id no table changes in either variant, and the
atomicity and completeness parts hold: deleting an existing user succeeds,
removes every row keyed by that user_id from all five tables and keeps every
other row, and a database error at any of the five DELETE statements (all before
the single commit) leaves the durable state exactly as it was.  But the claim's
`"returns HTTP 404"` holds only for the src/Routers/Users.py variant: the cited
src/agent.py variant raises its 404 inside a blanket `except Exception`, so the
client receives 500 with detail `"404: User not found"`. -/
theorem delete_account_behavior (db : DB) (uid : String) :
    (∀ failAt, db.findUser uid = none →
      routers_delete_user_account db uid failAt = (.error ⟨404, "User not found"⟩, db)
      ∧ agent_delete_user_account db uid failAt = (.error ⟨500, "404: User not found"⟩, db))
    ∧ (db.findUser uid ≠ none →
        agent_delete_user_account db uid none = routers_delete_user_account db uid none
        ∧ (routers_delete_user_account db uid none).1 = .ok "User account deleted successfully"
        ∧ (∀ r ∈ (routers_delete_user_account db uid none).2.users, r.user_id ≠ uid)
        ∧ (∀ r ∈ (routers_delete_user_account db uid none).2.assets, r.user_id ≠ uid)
        ∧ (∀ r ∈ (routers_delete_user_account db uid none).2.liabilities, r.user_id ≠ uid)
        ∧ (∀ r ∈ (routers_delete_user_account db uid none).2.investments, r.user_id ≠ uid)
        ∧ (∀ r ∈ (routers_delete_user_account db uid none).2.transactions, r.user_id ≠ uid)
        ∧ (∀ r ∈ db.users, r.user_id ≠ uid →
            r ∈ (routers_delete_user_account db uid none).2.users)
        ∧ (∀ r ∈ db.assets, r.user_id ≠ uid →
            r ∈ (routers_delete_user_account db uid none).2.assets)
        ∧ (∀ r ∈ db.liabilities, r.user_id ≠ uid →
            r ∈ (routers_delete_user_account db uid none).2.liabilities)
        ∧ (∀ r ∈ db.investments, r.user_id ≠ uid →
            r ∈ (routers_delete_user_account db uid none).2.investments)
        ∧ (∀ r ∈ db.transactions, r.user_id ≠ uid →
            r ∈ (routers_delete_user_account db uid none).2.transactions))
    ∧ (∀ k, k < 5 → (routers_delete_user_account db uid (some k)).2 = db
        ∧ (agent_delete_user_account db uid (some k)).2 = db) := by
  refine ⟨?_, ?_, ?_⟩
  · intro failAt h
    constructor
    · simp [routers_delete_user_account, h]
    · simp only [agent_delete_user_account, h, Option.isNone_none, if_true]
      rfl
  · intro h
    have hI : (db.findUser uid).isNone = false := by
      cases hf : db.findUser uid
      · exact absurd hf h
      · rfl
    have hres : routers_delete_user_account db uid none
        = (.ok "User account deleted successfully", pendingAfter db uid 5) := by
      simp [routers_delete_user_account, hI]
    have hagent : agent_delete_user_account db uid none
        = (.ok "User account deleted successfully", pendingAfter db uid 5) := by
      simp [agent_delete_user_account, hI]
    rw [hagent, hres, pendingAfter_five]
    refine ⟨rfl, rfl, ?_, ?_, ?_, ?_, ?_, ?_, ?_, ?_, ?_, ?_⟩
    · intro r hr; have h2 := (List.mem_filter.mp hr).2; simpa using h2
    · intro r hr; have h2 := (List.mem_filter.mp hr).2; simpa using h2
    · intro r hr; have h2 := (List.mem_filter.mp hr).2; simpa using h2
    · intro r hr; have h2 := (List.mem_filter.mp hr).2; simpa using h2
    · intro r hr; have h2 := (List.mem_filter.mp hr).2; simpa using h2
    · intro r hr hne; exact List.mem_filter.mpr ⟨hr, by simpa using hne⟩
    · intro r hr hne; exact List.mem_filter.mpr ⟨hr, by simpa using hne⟩
    · intro r hr hne; exact List.mem_filter.mpr ⟨hr, by simpa using hne⟩
    · intro r hr hne; exact List.mem_filter.mpr ⟨hr, by simpa using hne⟩
    · intro r hr hne; exact List.mem_filter.mpr ⟨hr, by simpa using hne⟩
  · intro k hk
    by_cases hn : db.findUser uid = none
    · constructor <;>
        simp [routers_delete_user_account, agent_delete_user_account, hn]
    · have hI' : (db.findUser uid).isNone = false := by
        cases hf : db.findUser uid
        · exact absurd hf hn
        · rfl
      constructor <;>
        simp [routers_delete_user_account, agent_delete_user_account, hI', hk]

/-- C10 witness: the branches of both variants evaluated on a concrete
two-user database. -/
theorem delete_account_behavior_witness :
    routers_delete_user_account db10 "ghost" none = (.error ⟨404, "User not found"⟩, db10)
    ∧ agent_delete_user_account db10 "ghost" none
        = (.error ⟨500, "404: User not found"⟩, db10)
    ∧ (routers_delete_user_account db10 "u1" none).1
        = .ok "User account deleted successfully"
    ∧ (routers_delete_user_account db10 "u1" (some 2)).2 = db10
    ∧ (agent_delete_user_account db10 "u1" (some 2)).2 = db10 :=
  ⟨((delete_account_behavior db10 "ghost").1 none rfl).1,
   ((delete_account_behavior db10 "ghost").1 none rfl).2,
   ((delete_account_behavior db10 "u1").2.1 (by decide)).2.1,
   ((delete_account_behavior db10 "u1").2.2 2 (by decide)).1,
   ((delete_account_behavior db10 "u1").2.2 2 (by decide)).2⟩

end FinBackend
